import Mathlib

/-!
Shallow embedding of the Windows disk-diagnostics sensor module
(`module.go`, package `windowsdiagnostics`, latest revision).

Modelling conventions:
- Go strings are byte sequences; we model them as `List Char` (`GoString`),
  one list element per byte.  `len(p)` becomes `p.length` and the byte
  index `p[1]` becomes `p[1]?`.
- Go `error` values are modelled by their message string (`GoError`).
- Go's `uint64` is modelled as `Nat` together with explicit wrap-around
  arithmetic modulo `2^64` (`u64sub`, `u64add`); bounds `< 2^64` appear as
  hypotheses where they matter.
- Go `float64` arithmetic in the used-percent computation is modelled
  exactly over `ℚ`.
- The native Windows API (`windows.UTF16PtrFromString`,
  `windows.GetDiskFreeSpaceEx`) is external to the repository; it is
  modelled as an oracle record `WinApi` supplied as a parameter.
- A Go function returning `(T, error)` is modelled as returning
  `Option T × Option GoError` (`nil` ↦ `none`), so "returns no result"
  is directly expressible.
- The logger, `context.Context` and the host registration machinery are
  side effects irrelevant to the claims and are elided.
-/

abbrev GoString := List Char

abbrev GoError := String

/-- `const defaultDiskPath = "C:\\"` (the Go literal `C:\`). -/
def defaultDiskPath : GoString := ['C', ':', '\\']

/-- `var errUnimplemented = errors.New("unimplemented")` -/
def errUnimplemented : GoError := "unimplemented"

/-- `type Config struct { Path string }` -/
structure Config where
  Path : GoString
deriving DecidableEq, Repr

/-- `func (cfg *Config) Validate(path string) ([]string, []string, error)`.
The Go method mutates `cfg` in place (setting `Path` to `defaultDiskPath`
when it is empty) and returns `nil, nil, nil`; we model the mutation by
returning the updated `Config` alongside the three returned values
(`nil` slices and `nil` error become `none`). -/
def Config.Validate (cfg : Config) (path : GoString) :
    Config × Option (List GoString) × Option (List GoString) × Option GoError :=
  (if cfg.Path = [] then { Path := defaultDiskPath } else cfg, none, none, none)

/-- `func normalizeDiskPath(p string) string` -/
def normalizeDiskPath (p : GoString) : GoString :=
  -- "C:" → "C:\"
  if p.length = 2 ∧ p[1]? = some ':' then p ++ ['\\']
  -- Defensive: "C" → "C:\"
  else if p.length = 1 then p ++ [':', '\\']
  else p

/-- Oracle for the native Windows API used by `getDiskUsage`.
`getDiskFreeSpaceEx path` returns, on success, the triple of out-parameters
in declaration order: `(freeBytesAvailable, totalNumberOfBytes,
totalNumberOfFreeBytes)`, each a `uint64` value. -/
structure WinApi where
  utf16PtrFromString : GoString → Option GoError
  getDiskFreeSpaceEx : GoString → Except GoError (Nat × Nat × Nat)

/-- `func getDiskUsage(path string) (total, free, available uint64, err error)`.
On either native failure it returns `0, 0, 0, err`; on success it returns
`totalNumberOfBytes, totalNumberOfFreeBytes, freeBytesAvailable, nil`. -/
def getDiskUsage (api : WinApi) (path : GoString) :
    (Nat × Nat × Nat) × Option GoError :=
  match api.utf16PtrFromString path with
  | some e => ((0, 0, 0), some e)
  | none =>
    match api.getDiskFreeSpaceEx path with
    | .error e => ((0, 0, 0), some e)
    | .ok (freeBytesAvailable, totalNumberOfBytes, totalNumberOfFreeBytes) =>
      ((totalNumberOfBytes, totalNumberOfFreeBytes, freeBytesAvailable), none)

/-- The modulus of Go's `uint64` arithmetic. -/
def u64 : Nat := 2 ^ 64

/-- Go `uint64` subtraction `a - b` (wraps modulo `2^64`). -/
def u64sub (a b : Nat) : Nat := (a + u64 - b) % u64

/-- Go `uint64` addition `a + b` (wraps modulo `2^64`). -/
def u64add (a b : Nat) : Nat := (a + b) % u64

/-- The used-percent computation of `Readings`:
`usedPercent := 0.0; if total > 0 { usedPercent = float64(used) / float64(total) * 100 }`,
with the `float64` arithmetic modelled exactly over `ℚ`. -/
def usedPercent (total used : Nat) : ℚ :=
  if total > 0 then (used : ℚ) / (total : ℚ) * 100 else 0

/-- The reading map returned by a successful `Readings` call.  The Go code
returns a `map[string]interface{}` with exactly these six fixed keys; we
model it as a record with one field per key. -/
structure Reading where
  path : GoString
  total_bytes : Nat
  free_bytes : Nat
  available_bytes : Nat
  used_bytes : Nat
  used_percent : ℚ
deriving DecidableEq, Repr

/-- `func (s *windowsDiagnosticsDisk) Readings(ctx, extra) (map[string]interface{}, error)`.
Normalizes the configured path, queries `getDiskUsage`, propagates its error
with a `nil` map, and otherwise derives `used := total - free` (uint64) and
the used-percent. -/
def Readings (api : WinApi) (cfg : Config) : Option Reading × Option GoError :=
  let path := normalizeDiskPath cfg.Path
  match getDiskUsage api path with
  | (_, some e) => (none, some e)
  | ((total, free, available), none) =>
    let used := u64sub total free
    let up := usedPercent total used
    (some { path := path, total_bytes := total, free_bytes := free,
            available_bytes := available, used_bytes := used,
            used_percent := up }, none)

/-- `func (s *windowsDiagnosticsDisk) DoCommand(ctx, cmd) (map[string]interface{}, error)`:
`return nil, errUnimplemented`.  The command map's contents are never
inspected, so the argument type is abstract. -/
def DoCommand {α : Type} (cmd : α) : Option Reading × Option GoError :=
  (none, some errUnimplemented)

/-- A concrete oracle whose native query succeeds on every path, reporting
`totalNumberOfBytes = t`, `totalNumberOfFreeBytes = f`,
`freeBytesAvailable = a`. -/
def apiOk (t f a : Nat) : WinApi :=
  { utf16PtrFromString := fun _ => none
    getDiskFreeSpaceEx := fun _ => .ok (a, t, f) }

/-- A concrete oracle whose native query fails on every path with error `e`. -/
def apiErr (e : GoError) : WinApi :=
  { utf16PtrFromString := fun _ => none
    getDiskFreeSpaceEx := fun _ => .error e }

/-- The reading produced for a volume with total 1000, free 400, available
400 bytes (the spec's worked example: used 600, used-percent 60). -/
def rExample : Reading :=
  { path := ['C', ':', '\\'], total_bytes := 1000, free_bytes := 400,
    available_bytes := 400, used_bytes := 600, used_percent := usedPercent 1000 600 }

/-- The reading produced for a (faulty-driver) volume with total 100 and
free 200: the uint64 subtraction wraps to `2^64 - 100`. -/
def rOverflow : Reading :=
  { path := ['C', ':', '\\'], total_bytes := 100, free_bytes := 200,
    available_bytes := 0, used_bytes := 18446744073709551516,
    used_percent := usedPercent 100 18446744073709551516 }

/-- Inversion of a successful `Readings` call: the returned record's
`used_bytes` and `used_percent` fields are derived from its own
`total_bytes` and `free_bytes` by the uint64 subtraction and the guarded
percentage computation. -/
theorem readings_ok_fields (api : WinApi) (cfg : Config) (r : Reading)
    (h : Readings api cfg = (some r, none)) :
    r.used_bytes = u64sub r.total_bytes r.free_bytes ∧
    r.used_percent = usedPercent r.total_bytes r.used_bytes := by
  rcases hg : getDiskUsage api (normalizeDiskPath cfg.Path) with ⟨⟨t, f, a⟩, err⟩
  simp only [Readings, hg] at h
  cases err with
  | some e => simp at h
  | none =>
    simp only [Prod.mk.injEq, Option.some.injEq] at h
    obtain ⟨hr, -⟩ := h
    subst hr
    exact ⟨rfl, rfl⟩

/-- C1: for every successful `Readings` call, the returned used-percent is
exactly 0 when the returned total is 0 (regardless of the free and
available values supplied by the OS query), and otherwise equals
used / total × 100 (float64 arithmetic modelled exactly over `ℚ`). -/
theorem readings_used_percent (api : WinApi) (cfg : Config) (r : Reading)
    (h : Readings api cfg = (some r, none)) :
    (r.total_bytes = 0 → r.used_percent = 0) ∧
    (r.total_bytes ≠ 0 →
      r.used_percent = (r.used_bytes : ℚ) / (r.total_bytes : ℚ) * 100) := by
  obtain ⟨-, hup⟩ := readings_ok_fields api cfg r h
  constructor
  · intro h0
    rw [hup]
    simp [usedPercent, h0]
  · intro h0
    rw [hup]
    unfold usedPercent
    rw [if_pos (Nat.pos_of_ne_zero h0)]

/-- Witness for C1 at total 1000, free 400, available 400 (used 600,
used-percent 60). -/
theorem readings_used_percent_witness :
    Readings (apiOk 1000 400 400) { Path := ['C', ':', '\\'] } = (some rExample, none) ∧
    ((rExample.total_bytes = 0 → rExample.used_percent = 0) ∧
     (rExample.total_bytes ≠ 0 →
       rExample.used_percent = (rExample.used_bytes : ℚ) / (rExample.total_bytes : ℚ) * 100)) :=
  ⟨rfl, readings_used_percent (apiOk 1000 400 400) { Path := ['C', ':', '\\'] } rExample rfl⟩

/-- C2: for every successful `Readings` call whose total and free byte
counts are uint64 values, the returned triple satisfies
used_bytes + free_bytes == total_bytes in uint64 arithmetic, where
used_bytes was computed as total - free over uint64. -/
theorem readings_triple_sum (api : WinApi) (cfg : Config) (r : Reading)
    (h : Readings api cfg = (some r, none))
    (ht : r.total_bytes < u64) (hf : r.free_bytes < u64) :
    u64add r.used_bytes r.free_bytes = r.total_bytes := by
  obtain ⟨hu, -⟩ := readings_ok_fields api cfg r h
  rw [hu]
  unfold u64add u64sub
  rw [Nat.mod_add_mod,
    Nat.sub_add_cancel (Nat.le_of_lt (Nat.lt_of_lt_of_le hf (Nat.le_add_left _ _))),
    Nat.add_mod_right, Nat.mod_eq_of_lt ht]

/-- Witness for C2 at total 1000, free 400 (600 + 400 = 1000). -/
theorem readings_triple_sum_witness :
    Readings (apiOk 1000 400 400) { Path := ['C', ':', '\\'] } = (some rExample, none) ∧
    rExample.total_bytes < u64 ∧ rExample.free_bytes < u64 ∧
    u64add rExample.used_bytes rExample.free_bytes = rExample.total_bytes :=
  ⟨rfl, by decide, by decide,
   readings_triple_sum (apiOk 1000 400 400) { Path := ['C', ':', '\\'] } rExample rfl
     (by decide) (by decide)⟩

/-- C3 counterexample: when the OS query reports free = 200 > total = 100,
the reading returned by `Readings` has a POSITIVE used_bytes (the uint64
subtraction wraps to `2^64 - 100`) and a POSITIVE used-percent, refuting
the claim that both come out negative. -/
theorem readings_wrap_not_negative :
    Readings (apiOk 100 200 0) { Path := ['C', ':', '\\'] } = (some rOverflow, none) ∧
    rOverflow.total_bytes < rOverflow.free_bytes ∧
    0 < rOverflow.used_bytes ∧ 0 < rOverflow.used_percent := by
  refine ⟨rfl, by decide, by decide, ?_⟩
  norm_num [rOverflow, usedPercent]

/-- C3 amended: if the OS query returns free > total (with free a uint64
value and total positive), `Readings` yields used_bytes equal to
`2^64 - (free - total)` — the uint64 subtraction wraps to a large positive
value instead of going negative — and a used-percent of
used / total × 100, which exceeds 100; the values are passed through with
no clamping. -/
theorem readings_free_gt_total_wraps (api : WinApi) (cfg : Config) (r : Reading)
    (h : Readings api cfg = (some r, none))
    (hgt : r.total_bytes < r.free_bytes) (hf : r.free_bytes < u64)
    (hpos : 0 < r.total_bytes) :
    r.used_bytes = u64 - (r.free_bytes - r.total_bytes) ∧
    r.used_percent = (r.used_bytes : ℚ) / (r.total_bytes : ℚ) * 100 ∧
    100 < r.used_percent := by
  obtain ⟨hu, hup⟩ := readings_ok_fields api cfg r h
  have hub : r.used_bytes = u64 - (r.free_bytes - r.total_bytes) := by
    rw [hu]
    unfold u64sub
    have h1 : r.total_bytes + u64 - r.free_bytes
        = u64 - (r.free_bytes - r.total_bytes) := by omega
    have h2 : u64 - (r.free_bytes - r.total_bytes) < u64 := by omega
    rw [h1, Nat.mod_eq_of_lt h2]
  have hperc : r.used_percent = (r.used_bytes : ℚ) / (r.total_bytes : ℚ) * 100 := by
    rw [hup]
    unfold usedPercent
    rw [if_pos hpos]
  refine ⟨hub, hperc, ?_⟩
  have htu : r.total_bytes < r.used_bytes := by
    rw [hub]; omega
  have htuQ : (r.total_bytes : ℚ) < (r.used_bytes : ℚ) := by exact_mod_cast htu
  have ht0 : (0 : ℚ) < (r.total_bytes : ℚ) := by exact_mod_cast hpos
  rw [hperc, div_mul_eq_mul_div, lt_div_iff₀ ht0]
  linarith

/-- Witness for the amended C3 at total 100, free 200. -/
theorem readings_free_gt_total_wraps_witness :
    Readings (apiOk 100 200 0) { Path := ['C', ':', '\\'] } = (some rOverflow, none) ∧
    rOverflow.total_bytes < rOverflow.free_bytes ∧
    rOverflow.free_bytes < u64 ∧ 0 < rOverflow.total_bytes ∧
    (rOverflow.used_bytes = u64 - (rOverflow.free_bytes - rOverflow.total_bytes) ∧
     rOverflow.used_percent = (rOverflow.used_bytes : ℚ) / (rOverflow.total_bytes : ℚ) * 100 ∧
     100 < rOverflow.used_percent) :=
  ⟨rfl, by decide, by decide, by decide,
   readings_free_gt_total_wraps (apiOk 100 200 0) { Path := ['C', ':', '\\'] } rOverflow rfl
     (by decide) (by decide) (by decide)⟩

/-- C4: the path normalizer appends the separator to a two-character input
whose second character is the drive-letter separator, turns a
one-character input into a drive root, and returns any other non-empty
input unchanged. -/
theorem normalizeDiskPath_spec (p : GoString) :
    (p.length = 2 → p[1]? = some ':' → normalizeDiskPath p = p ++ ['\\']) ∧
    (p.length = 1 → normalizeDiskPath p = p ++ [':', '\\']) ∧
    (p ≠ [] → ¬(p.length = 2 ∧ p[1]? = some ':') → p.length ≠ 1 →
      normalizeDiskPath p = p) := by
  refine ⟨fun h2 hc => ?_, fun h1 => ?_, fun hne hn h1 => ?_⟩
  · simp [normalizeDiskPath, h2, hc]
  · simp [normalizeDiskPath, h1]
  · unfold normalizeDiskPath
    rw [if_neg hn, if_neg h1]

/-- Witness for C4 on the input `"C:"`. -/
theorem normalizeDiskPath_spec_witness :
    (['C', ':'] : GoString).length = 2 ∧ (['C', ':'] : GoString)[1]? = some ':' ∧
    normalizeDiskPath ['C', ':'] = ['C', ':'] ++ ['\\'] :=
  ⟨rfl, rfl, (normalizeDiskPath_spec ['C', ':']).1 rfl rfl⟩

/-- C5 counterexample: `normalizeDiskPath` returns the empty string
unchanged; it does NOT substitute the configured default root
(`defaultDiskPath`). -/
theorem normalizeDiskPath_empty_cex :
    normalizeDiskPath [] = ([] : GoString) ∧ ([] : GoString) ≠ defaultDiskPath :=
  ⟨rfl, by decide⟩

/-- C5 amended: the normalizer has no empty-string rule and passes the
empty string through unchanged; the substitution of the configured default
root for an empty path is performed earlier, by `Config.Validate`, before
the normalizer ever runs. -/
theorem normalizeDiskPath_empty_amended :
    normalizeDiskPath [] = ([] : GoString) ∧
    ∀ path : GoString, ((Config.mk []).Validate path).1.Path = defaultDiskPath :=
  ⟨rfl, fun _ => rfl⟩

/-- C6: an empty configured path is replaced by the default drive root
`"C:\"` by `Config.Validate`, so every subsequent `Readings` call on the
validated configuration behaves exactly as with the default path. -/
theorem validate_applies_default (cfg : Config) (path : GoString) (api : WinApi)
    (h : cfg.Path = []) :
    (cfg.Validate path).1.Path = defaultDiskPath ∧
    Readings api (cfg.Validate path).1 = Readings api { Path := defaultDiskPath } := by
  simp [Config.Validate, h]

/-- Witness for C6 on the empty configuration. -/
theorem validate_applies_default_witness :
    (Config.mk []).Path = ([] : GoString) ∧
    ((Config.mk []).Validate []).1.Path = defaultDiskPath ∧
    Readings (apiOk 1000 400 400) ((Config.mk []).Validate []).1 =
      Readings (apiOk 1000 400 400) { Path := defaultDiskPath } :=
  ⟨rfl, validate_applies_default (Config.mk []) [] (apiOk 1000 400 400) rfl⟩

/-- C7: the path normalizer is idempotent — normalizing an
already-normalized path is a no-op. -/
theorem normalizeDiskPath_idem (p : GoString) :
    normalizeDiskPath (normalizeDiskPath p) = normalizeDiskPath p := by
  match p with
  | [] => rfl
  | [a] => rfl
  | [a, b] =>
    rcases eq_or_ne b ':' with h | h
    · subst h; rfl
    · simp [normalizeDiskPath, h]
  | a :: b :: c :: rest => rfl

/-- C8: whenever the OS query `getDiskUsage` fails, `Readings` returns
that very error with a nil reading map — no retry, no fallback path and
no cached value. -/
theorem readings_propagates_error (api : WinApi) (cfg : Config) (e : GoError)
    (h : (getDiskUsage api (normalizeDiskPath cfg.Path)).2 = some e) :
    Readings api cfg = (none, some e) := by
  rcases hg : getDiskUsage api (normalizeDiskPath cfg.Path) with ⟨⟨t, f, a⟩, err⟩
  rw [hg] at h
  simp only [Readings, hg]
  cases err with
  | some e2 =>
    have he : e2 = e := by simpa using h
    subst he
    rfl
  | none => simp at h

/-- Witness for C8 with an oracle that fails on every path. -/
theorem readings_propagates_error_witness :
    (getDiskUsage (apiErr "The system cannot find the path specified.")
        (normalizeDiskPath (Config.mk ['Z', ':']).Path)).2 =
      some "The system cannot find the path specified." ∧
    Readings (apiErr "The system cannot find the path specified.") { Path := ['Z', ':'] } =
      (none, some "The system cannot find the path specified.") :=
  ⟨rfl,
   readings_propagates_error (apiErr "The system cannot find the path specified.")
     { Path := ['Z', ':'] } "The system cannot find the path specified." rfl⟩

/-- C9: for every input, `DoCommand` returns a nil result map and the
fixed `errUnimplemented` error. -/
theorem doCommand_always_unimplemented {α : Type} (cmd : α) :
    (DoCommand cmd).1 = none ∧ (DoCommand cmd).2 = some errUnimplemented :=
  ⟨rfl, rfl⟩

/-- C10: `Config.Validate` never fails: it returns nil required
dependencies, nil optional dependencies and a nil error for every
configuration, and its only effect is to set `Path` to the default root
exactly when `Path` is empty, leaving a non-empty `Path` unchanged. -/
theorem validate_returns_nil_and_defaults (cfg : Config) (path : GoString) :
    (cfg.Validate path).2.1 = none ∧
    (cfg.Validate path).2.2.1 = none ∧
    (cfg.Validate path).2.2.2 = none ∧
    (cfg.Path = [] → (cfg.Validate path).1 = { Path := defaultDiskPath }) ∧
    (cfg.Path ≠ [] → (cfg.Validate path).1 = cfg) := by
  refine ⟨rfl, rfl, rfl, fun h => ?_, fun h => ?_⟩
  · simp [Config.Validate, h]
  · simp [Config.Validate, h]

/-- Witness for C10 on the empty configuration. -/
theorem validate_returns_nil_and_defaults_witness :
    (Config.mk []).Path = ([] : GoString) ∧
    ((Config.mk []).Validate ['c']).1 = { Path := defaultDiskPath } :=
  ⟨rfl, (validate_returns_nil_and_defaults (Config.mk []) ['c']).2.2.2.1 rfl⟩
